import Mathlib

/-!
# QSiteBuilder: verification of the document store, polling adapter,
AI gateway retry loop and document summarizer

Shallow embedding of the QuickStor backend (Express key/value store over a
flat JSON file), the Firestore-compatible client adapters (frontend and
admin `firebase.js`), the Gemini gateway retry loop (`geminiClient.js`),
the chunked document summarizer and the backup-restore handler.
-/

namespace QSite

/-- JSON values, as stored by the backend and exchanged by the adapters. -/
inductive Json where
  | null : Json
  | bool (b : Bool) : Json
  | num (n : Int) : Json
  | str (s : String) : Json
  | arr (elts : List Json) : Json
  | obj (fields : List (String × Json)) : Json

/-- JavaScript truthiness of a JSON value: `null`, `false`, `0` and `""`
are falsy; every array and object (including `{}` and `[]`) is truthy. -/
def Json.truthy : Json → Bool
  | .null => false
  | .bool b => b
  | .num n => n != 0
  | .str s => s != ""
  | .arr _ => true
  | .obj _ => true

/-- True exactly for values with JavaScript `typeof v === "object"`
that are not `null`-free: arrays and objects (note: in JS
`typeof null === "object"` too, but `null` fails the truthiness guard
first in every handler that uses this). -/
def Json.isObjectType : Json → Bool
  | .arr _ => true
  | .obj _ => true
  | .null => true
  | _ => false

/-- True exactly for plain JSON objects. -/
def Json.isObj : Json → Bool
  | .obj _ => true
  | _ => false

/-- The backend's whole persisted mapping (`data.json`): path keyed. -/
abbrev Store := List (String × Json)

/-- Models `allData[docPath]`: first-match lookup in the mapping. -/
def storeGet : Store → String → Option Json
  | [], _ => none
  | (k, w) :: rest, p => if k = p then some w else storeGet rest p

/-- Models `allData[docPath] = newData`: JS property assignment: updates the
existing key in place, otherwise appends the new key. -/
def storeSet : Store → String → Json → Store
  | [], p, v => [(p, v)]
  | (k, w) :: rest, p, v =>
      if k = p then (k, v) :: rest else (k, w) :: storeSet rest p v

/-- Responses the backend's document endpoints can produce. -/
inductive HRes where
  | ok (v : Json) : HRes
  | notFound : HRes
  | badRequest : HRes

/-- Handler for `GET /api/data/:path`: reads `allData[docPath]` and answers 404
unless the stored value is truthy (`if (docData) res.json(docData) else 404`). -/
def getDataHandler (store : Store) (p : String) : HRes :=
  match storeGet store p with
  | some docData => if docData.truthy then .ok docData else .notFound
  | none => .notFound

/-- Handler for `POST /api/data/:path`: unconditionally upserts the key with the
request body and succeeds. Returns the new store. -/
def postDataHandler (store : Store) (p : String) (body : Json) : Store :=
  storeSet store p body

/-- Fields an accepted full-restore body contributes to the mapping:
an object contributes its fields; an array, its index-keyed elements
(other array properties are outside the model). -/
def restoreFields : Json → Store
  | .obj l => l
  | .arr xs => (List.zip (List.map toString (List.range xs.length)) xs)
  | _ => []

/-- Handler for `POST /api/data` (full restore): rejects a falsy or non-object body
with 400, else overwrites the entire mapping with the body. -/
def restoreAllHandler (body : Json) : Except HRes Store :=
  if body.truthy = false ∨ body.isObjectType = false then .error .badRequest
  else .ok (restoreFields body)

end QSite

namespace QSite

/-! ## Claims C2, C3, C9 — backend read/write behaviour -/

lemma storeGet_storeSet_self (store : Store) (p : String) (v : Json) :
    storeGet (storeSet store p v) p = some v := by
  induction store with
  | nil => simp [storeSet, storeGet]
  | cons hd tl ih =>
      obtain ⟨k, w⟩ := hd
      by_cases h : k = p <;> simp [storeSet, storeGet, h, ih]

lemma isObj_truthy (v : Json) (h : v.isObj = true) : v.truthy = true := by
  cases v <;> simp_all [Json.isObj, Json.truthy]

/-- C2: writing a JSON object V to path P via the single-document POST
handler and then reading P via the GET handler (no intervening write)
returns 200 with exactly the stored value V. -/
theorem post_then_get_roundtrip (store : Store) (p : String) (v : Json)
    (hobj : v.isObj = true) :
    getDataHandler (postDataHandler store p v) p = .ok v := by
  unfold getDataHandler postDataHandler
  rw [storeGet_storeSet_self]
  simp [isObj_truthy v hobj]

/-- Witness for C2 at a concrete store, path and object value. -/
theorem post_then_get_roundtrip_witness :
    getDataHandler (postDataHandler [] "sites/quickstor-staging"
        (Json.obj [("title", Json.str "hi")])) "sites/quickstor-staging"
      = .ok (Json.obj [("title", Json.str "hi")]) :=
  post_then_get_roundtrip [] "sites/quickstor-staging"
    (Json.obj [("title", Json.str "hi")]) (by decide)

/-- C3 counterexample: a store in which the key "p" is present (bound to
`null`) but the GET handler answers 404 anyway, refuting "404 if and only
if the key is absent". -/
theorem get_404_despite_present_key :
    storeGet [("p", Json.null)] "p" = some Json.null ∧
      getDataHandler [("p", Json.null)] "p" = .notFound := by
  constructor <;> rfl

/-- C3 (amended): the GET handler answers 404 exactly when the key is
absent or its stored value is JS-falsy; otherwise (stored value truthy)
it returns the stored value. In particular a never-written path gives 404
and the handler never throws (it is a total function). -/
theorem get_handler_characterization (store : Store) (p : String) :
    (getDataHandler store p = .notFound ↔
        ∀ v, storeGet store p = some v → v.truthy = false) ∧
      (∀ v, storeGet store p = some v → v.truthy = true →
        getDataHandler store p = .ok v) := by
  constructor
  · constructor
    · intro h v hv
      unfold getDataHandler at h
      rw [hv] at h
      by_contra htr
      simp [eq_true_of_ne_false htr] at h
    · intro h
      unfold getDataHandler
      cases hv : storeGet store p with
      | none => rfl
      | some v => simp [h v hv]
  · intro v hv htr
    unfold getDataHandler
    rw [hv]
    simp [htr]

/-- Witness for the amended C3 at a concrete store and path. -/
theorem get_handler_characterization_witness :
    getDataHandler [("p", Json.num 7)] "p" = .ok (Json.num 7) :=
  (get_handler_characterization [("p", Json.num 7)] "p").2
    (Json.num 7) rfl rfl

/-- C9: if the stored mapping binds key P to a JS-falsy value, the GET
handler answers 404 even though the key is present; such a store is
reachable through the full-restore POST whose body object contains a
falsy field (shown for `null` at key "p"). -/
theorem falsy_value_reads_as_missing :
    (∀ (store : Store) (p : String) (v : Json),
        storeGet store p = some v → v.truthy = false →
        getDataHandler store p = .notFound) ∧
      (restoreAllHandler (Json.obj [("p", Json.null)]) = .ok [("p", Json.null)] ∧
        storeGet [("p", Json.null)] "p" = some Json.null ∧
        getDataHandler [("p", Json.null)] "p" = .notFound) := by
  refine ⟨fun store p v hv htr => ?_, rfl, rfl, rfl⟩
  unfold getDataHandler
  rw [hv]
  simp [htr]

/-- Witness for C9's universally quantified part at a concrete store. -/
theorem falsy_value_reads_as_missing_witness :
    getDataHandler [("q", Json.str "")] "q" = .notFound :=
  falsy_value_reads_as_missing.1 [("q", Json.str "")] "q" (Json.str "") rfl rfl

end QSite

namespace QSite

/-! ## Client adapters (frontend/admin `firebase.js`): getDoc, setDoc merge,
polling onSnapshot -/

mutual

/-- Models `JSON.stringify` on the modelled JSON values (string escaping is not
modelled; keys and string contents are compared as given). -/
def Json.stringify : Json → String
  | .null => "null"
  | .bool b => cond b "true" "false"
  | .num n => toString n
  | .str s => "\"" ++ s ++ "\""
  | .arr xs => "[" ++ stringifyElems xs ++ "]"
  | .obj l => "\x7b" ++ stringifyFields l ++ "\x7d"

def stringifyElems : List Json → String
  | [] => ""
  | [x] => Json.stringify x
  | x :: y :: rest => Json.stringify x ++ "," ++ stringifyElems (y :: rest)

def stringifyFields : List (String × Json) → String
  | [] => ""
  | [(k, v)] => "\"" ++ k ++ "\":" ++ Json.stringify v
  | (k, v) :: p :: rest =>
      "\"" ++ k ++ "\":" ++ Json.stringify v ++ "," ++ stringifyFields (p :: rest)

end

/-- What a single `fetch` of the adapter can come back with: a rejected
promise, or a response with its HTTP status and (when the body parses as
JSON) its parsed body; `body = none` models a JSON parse failure. -/
inductive FetchRes where
  | netErr : FetchRes
  | resp (status : Nat) (body : Option Json) : FetchRes

/-- Models `response.ok`: status in the 2xx range. -/
def respIsOk (status : Nat) : Bool := decide (200 ≤ status) && decide (status < 300)

/-- The snapshot object the adapter's `getDoc` resolves with:
`found` is `exists()` and `data` is `data()` (`none` = `undefined`). -/
structure Snap where
  found : Bool
  data : Option Json

/-- The `try` block of the adapter's `getDoc`: 404 resolves to a missing
snapshot, any other non-ok status throws "Backend error", a body that does
not parse throws, and an ok parsed body resolves to an existing snapshot. -/
def getDocTry : FetchRes → Except String Snap
  | .netErr => .error "fetch rejected"
  | .resp status body =>
      if respIsOk status then
        match body with
        | some d => .ok ⟨true, some d⟩
        | none => .error "JSON parse error"
      else if status = 404 then .ok ⟨false, none⟩
      else .error "Backend error"

/-- The adapter's `getDoc`: every throw of the `try` block is caught and
converted into a missing snapshot, so the promise never rejects. -/
def getDoc (r : FetchRes) : Snap :=
  match getDocTry r with
  | .ok snap => snap
  | .error _ => ⟨false, none⟩

/-- A fetch outcome is a success exactly when the status is 2xx and the
body parsed. -/
def fetchSuccess : FetchRes → Bool
  | .resp status (some _) => respIsOk status
  | _ => false

/-- Enumerable own fields contributed by a value under JS object spread
(spreading a non-object contributes none; strings are not modelled). -/
def spreadFields : Json → List (String × Json)
  | .obj l => l
  | _ => []

/-- Models `{ ...a, ...b }`: fields of `a` overridden in place by `b`, with
`b`'s fresh keys appended, exactly as JS property assignment orders them. -/
def mergeSpread (a b : Json) : Json :=
  .obj ((spreadFields b).foldl (fun acc kv => storeSet acc kv.1 kv.2) (spreadFields a))

/-- The body `setDoc` finally POSTs: with `{merge: true}` it reads first
and, only when the read snapshot exists, spreads the new data over it;
otherwise the new data is written as-is (full overwrite). -/
def setDocFinalData (readRes : FetchRes) (data : Json) (merge : Bool) : Json :=
  if merge then
    let existingSnap := getDoc readRes
    if existingSnap.found then mergeSpread (existingSnap.data.getD Json.null) data
    else data
  else data

/-- Serialization `JSON.stringify(snap.data())` for one poll: `none` models the JS
`undefined` that `JSON.stringify(undefined)` yields for a missing doc. -/
def pollSerialized (r : FetchRes) : Option String :=
  (getDoc r).data.map Json.stringify

/-- Frontend `onSnapshot` polling loop over a finite trace of fetch
outcomes, returning the serialized payloads passed to the callback.
`last` is the stored `lastJson`: `none` is its initial JS `null`, and the
callback fires exactly when `currentJson !== lastJson`, which then
updates `lastJson`. -/
def onSnapshotFrontend (last : Option (Option String)) :
    List FetchRes → List (Option String)
  | [] => []
  | r :: rs =>
      let currentJson := pollSerialized r
      if some currentJson = last then onSnapshotFrontend last rs
      else currentJson :: onSnapshotFrontend (some currentJson) rs

/-- Admin `onSnapshot` polling loop: `fetchData` invokes the callback on
the initial fetch and on every 2-second interval tick, unconditionally. -/
def onSnapshotAdmin : List FetchRes → List (Option String)
  | [] => []
  | r :: rs => pollSerialized r :: onSnapshotAdmin rs

end QSite

namespace QSite

/-! ## Claims C1 and C10 — adapter behaviour -/

/-- C10: the adapter's `getDoc` never rejects — on every failed fetch
outcome (network error, non-2xx other than 404, 404 itself, or JSON parse
error) it resolves to `exists() = false`, `data() = undefined`; hence
`setDoc` with `{merge: true}` degrades to a full overwrite whenever the
preceding read fails. -/
theorem getDoc_never_rejects :
    (∀ r : FetchRes, fetchSuccess r = false → getDoc r = ⟨false, none⟩) ∧
      (∀ (r : FetchRes) (data : Json), fetchSuccess r = false →
        setDocFinalData r data true = data) := by
  have hfail : ∀ r : FetchRes, fetchSuccess r = false → getDoc r = ⟨false, none⟩ := by
    intro r hr
    cases r with
    | netErr => rfl
    | resp status body =>
        cases body with
        | none =>
            unfold getDoc getDocTry
            by_cases hok : respIsOk status = true
            · simp [hok]
            · simp [Bool.not_eq_true] at hok
              by_cases h404 : status = 404
              · subst h404; simp [hok]
              · simp [hok, h404]
        | some d =>
            have hok : respIsOk status = false := by
              simpa [fetchSuccess] using hr
            unfold getDoc getDocTry
            by_cases h404 : status = 404
            · subst h404; simp [hok]
            · simp [hok, h404]
  refine ⟨hfail, fun r data hr => ?_⟩
  unfold setDocFinalData
  rw [hfail r hr]
  simp

/-- Witness for C10 at a failing concrete fetch outcome (HTTP 500). -/
theorem getDoc_never_rejects_witness :
    getDoc (FetchRes.resp 500 (some Json.null)) = ⟨false, none⟩ ∧
      setDocFinalData (FetchRes.resp 500 (some Json.null))
        (Json.obj [("a", Json.num 1)]) true = Json.obj [("a", Json.num 1)] :=
  ⟨getDoc_never_rejects.1 (FetchRes.resp 500 (some Json.null)) rfl,
    getDoc_never_rejects.2 (FetchRes.resp 500 (some Json.null))
      (Json.obj [("a", Json.num 1)]) rfl⟩

/-- C1 counterexample: two consecutive admin polls that both return the
same document content make the admin adapter invoke its callback twice in
a row with byte-identical serialized content, refuting the claim's "holds
for both the frontend and the admin store adapters". -/
theorem admin_watch_repeats_identical_content :
    onSnapshotAdmin
        [FetchRes.resp 200 (some (Json.obj [("a", Json.num 1)])),
         FetchRes.resp 200 (some (Json.obj [("a", Json.num 1)]))]
      = [some "\x7b\"a\":1\x7d", some "\x7b\"a\":1\x7d"] ∧
      ¬ List.Chain' (fun a b => a ≠ b)
        (onSnapshotAdmin
          [FetchRes.resp 200 (some (Json.obj [("a", Json.num 1)])),
           FetchRes.resp 200 (some (Json.obj [("a", Json.num 1)]))]) := by
  constructor
  · rfl
  · intro h
    have := List.chain'_cons.mp h
    exact this.1 rfl

lemma onSnapshotFrontend_chain (polls : List FetchRes) :
    ∀ cur : Option String,
      List.Chain' (fun a b => a ≠ b)
        (cur :: onSnapshotFrontend (some cur) polls) := by
  induction polls with
  | nil => intro cur; simp [onSnapshotFrontend]
  | cons r rs ih =>
      intro cur
      by_cases h : pollSerialized r = cur
      · rw [onSnapshotFrontend, if_pos (by rw [h])]
        exact ih cur
      · rw [onSnapshotFrontend, if_neg (by simpa using h)]
        exact List.chain'_cons.mpr ⟨fun hc => h hc.symm, ih (pollSerialized r)⟩

/-- C1 (amended): the frontend adapter invokes the callback on the first
poll regardless of content, and thereafter never twice in a row with
identical serialized content; the admin adapter instead invokes the
callback on every poll, unconditionally. -/
theorem watch_callback_dedup_amended :
    (∀ (r : FetchRes) (polls : List FetchRes),
        (onSnapshotFrontend none (r :: polls)).head? = some (pollSerialized r)) ∧
      (∀ polls : List FetchRes,
        List.Chain' (fun a b => a ≠ b) (onSnapshotFrontend none polls)) ∧
      (∀ polls : List FetchRes,
        onSnapshotAdmin polls = List.map pollSerialized polls) := by
  refine ⟨fun r polls => ?_, fun polls => ?_, fun polls => ?_⟩
  · rw [onSnapshotFrontend, if_neg (by simp)]
    rfl
  · cases polls with
    | nil => simp [onSnapshotFrontend]
    | cons r rs =>
        rw [onSnapshotFrontend, if_neg (by simp)]
        exact onSnapshotFrontend_chain rs (pollSerialized r)
  · induction polls with
    | nil => rfl
    | cons r rs ih => simpa [onSnapshotAdmin] using ih

end QSite

namespace QSite

/-! ## Gemini gateway retry loop (`geminiClient.js`, `callGeminiAPI`) -/

def MAX_RETRIES : Nat := 3

def INITIAL_DELAY_MS : Nat := 2000

/-- Predicate `leadEq needle hay`: `needle` is an initial run of `hay`. -/
def leadEq : List Char → List Char → Bool
  | [], _ => true
  | _ :: _, [] => false
  | a :: as, b :: bs => a == b && leadEq as bs

/-- Predicate `containsSeq needle hay`: `needle` occurs contiguously in `hay`. -/
def containsSeq (needle : List Char) : List Char → Bool
  | [] => leadEq needle []
  | c :: cs => leadEq needle (c :: cs) || containsSeq needle cs

/-- JS `hay.includes(needle)` on strings. -/
def strContains (hay needle : String) : Bool := containsSeq needle.data hay.data

/-- Models `error.message?.includes('429')` in the retry guard. -/
def msgHas429 (s : String) : Bool := strContains s "429"

/-- JS `a || b` for an optional string `a` (absent or empty falls back). -/
def jsOrStr (a : Option String) (b : String) : String :=
  match a with
  | some m => if m = "" then b else m
  | none => b

/-- What one `fetch` of the Gemini endpoint can come back with: a rejected
promise, or a response carrying its HTTP status, the parsed
`errorData.error?.message` used on the non-ok path, and the extracted
`candidates[0].content.parts[0].text` used on the ok path. -/
inductive GFetch where
  | thrown (msg : String) : GFetch
  | resp (status : Nat) (errMsg : Option String) (text : Option String) : GFetch

/-- Observable outcome of `callGeminiAPI`: the returned text or thrown
error message, the backoff delays slept (in order), and how many fetch
attempts were made. -/
structure GRes where
  result : Except String String
  delays : List Nat
  fetches : Nat

/-- The `catch` block of the retry loop: records the error, and sleeps
`INITIAL_DELAY_MS * 2^attempt` before the next attempt only when a retry
remains and the message mentions 429; either way the loop proceeds. -/
def geminiCatch (attempt : Nat) (msg : String) (rest : GRes) : GRes :=
  if attempt < MAX_RETRIES - 1 ∧ msgHas429 msg = true then
    ⟨rest.result, (INITIAL_DELAY_MS * 2 ^ attempt) :: rest.delays, rest.fetches + 1⟩
  else ⟨rest.result, rest.delays, rest.fetches + 1⟩

/-- The `for (attempt …)` loop of `callGeminiAPI`, one case per fetch
outcome: 429/503 sleeps `INITIAL_DELAY_MS * 2^attempt` and continues
without touching `lastError`; any other non-ok status throws
`errorData.error?.message || 'Gemini API error: <status>'` into the catch;
an ok response returns its text, or throws when no text was generated.
When attempts are exhausted, `lastError` (or the generic failure message)
is thrown. -/
def geminiLoop (outs : Nat → GFetch) :
    (attempt : Nat) → (remaining : Nat) → (lastError : Option String) → GRes
  | _, 0, lastError =>
      ⟨.error (lastError.getD "Failed after multiple retries"), [], 0⟩
  | attempt, remaining + 1, lastError =>
      match outs attempt with
      | .thrown msg =>
          geminiCatch attempt msg (geminiLoop outs (attempt + 1) remaining (some msg))
      | .resp status errMsg text =>
          if status = 429 ∨ status = 503 then
            let rest := geminiLoop outs (attempt + 1) remaining lastError
            ⟨rest.result, (INITIAL_DELAY_MS * 2 ^ attempt) :: rest.delays,
              rest.fetches + 1⟩
          else if respIsOk status = false then
            let msg := jsOrStr errMsg ("Gemini API error: " ++ toString status)
            geminiCatch attempt msg
              (geminiLoop outs (attempt + 1) remaining (some msg))
          else
            match text with
            | some t => ⟨.ok t, [], 1⟩
            | none =>
                let msg := "No response generated from Gemini API"
                geminiCatch attempt msg
                  (geminiLoop outs (attempt + 1) remaining (some msg))

/-- Non-streaming `callGeminiAPI` over a trace of per-attempt fetch
outcomes, starting at attempt 0 with `MAX_RETRIES` attempts available. -/
def callGeminiAPI (outs : Nat → GFetch) : GRes :=
  geminiLoop outs 0 MAX_RETRIES none

end QSite

namespace QSite

/-! ## Claim C4 — retry behaviour of the Gemini gateway -/

/-- C4 counterexample: a first attempt answered with HTTP 400 (a 4xx other
than 429) is not thrown immediately — the loop proceeds to a second fetch,
which succeeds, and the call returns that success after 2 fetches. -/
theorem gemini_400_is_retried :
    callGeminiAPI (fun n =>
        if n = 0 then GFetch.resp 400 none none
        else GFetch.resp 200 none (some "hi"))
      = ⟨Except.ok "hi", [], 2⟩ := rfl

lemma geminiCatch_fetches (a : Nat) (m : String) (rest : GRes) :
    (geminiCatch a m rest).fetches = rest.fetches + 1 := by
  unfold geminiCatch
  split <;> rfl

lemma geminiLoop_fetches_le (outs : Nat → GFetch) :
    ∀ (remaining attempt : Nat) (lastError : Option String),
      (geminiLoop outs attempt remaining lastError).fetches ≤ remaining := by
  intro remaining
  induction remaining with
  | zero => intro a le; simp [geminiLoop]
  | succ r ih =>
      intro a le
      rw [geminiLoop]
      cases houts : outs a with
      | thrown msg =>
          rw [geminiCatch_fetches]
          exact Nat.succ_le_succ (ih (a + 1) (some msg))
      | resp status errMsg text =>
          by_cases hrl : status = 429 ∨ status = 503
          · simp only [if_pos hrl]
            exact Nat.succ_le_succ (ih (a + 1) le)
          · simp only [if_neg hrl]
            by_cases hok : respIsOk status = false
            · simp only [if_pos hok, geminiCatch_fetches]
              exact Nat.succ_le_succ (ih (a + 1) _)
            · simp only [if_neg hok]
              cases text with
              | some t => exact Nat.succ_le_succ (Nat.zero_le r)
              | none =>
                  simp only [geminiCatch_fetches]
                  exact Nat.succ_le_succ (ih (a + 1) _)

/-- C4 (amended): the non-streaming call makes at most 3 fetch attempts.
When every attempt is rate-limited (HTTP 429), it backs off 2s, 4s, 8s
and then throws the generic failure message (no per-attempt error was
recorded). A non-429 4xx is not thrown immediately: the loop re-attempts
without backoff, and the error surfaces only after the attempt cap, as
when all three attempts answer HTTP 400. -/
theorem gemini_retry_amended :
    (∀ outs : Nat → GFetch, (∀ n, outs n = GFetch.resp 429 none none) →
        callGeminiAPI outs
          = ⟨Except.error "Failed after multiple retries", [2000, 4000, 8000], 3⟩) ∧
      (callGeminiAPI (fun _ => GFetch.resp 400 none none)
        = ⟨Except.error "Gemini API error: 400", [], 3⟩) ∧
      (∀ outs : Nat → GFetch, (callGeminiAPI outs).fetches ≤ MAX_RETRIES) := by
  refine ⟨fun outs h => ?_, rfl, fun outs => geminiLoop_fetches_le outs MAX_RETRIES 0 none⟩
  rw [show outs = fun _ => GFetch.resp 429 none none from funext h]
  rfl

/-- Witness for C4's amended theorem: the all-429 trace instantiated. -/
theorem gemini_retry_amended_witness :
    callGeminiAPI (fun _ => GFetch.resp 429 none none)
      = ⟨Except.error "Failed after multiple retries", [2000, 4000, 8000], 3⟩ :=
  gemini_retry_amended.1 (fun _ => GFetch.resp 429 none none) (fun _ => rfl)

end QSite

namespace QSite

/-! ## Context-aware document summarizer (`aiService.js`) -/

/-- Models `estimateTokenCount`: 0 for falsy text, else `Math.ceil(length / 4)`. -/
def estimateTokenCount (text : String) : Nat :=
  if text = "" then 0 else (text.length + 3) / 4

/-- The provider configuration the summarizer consults:
`config?.provider` and `config.openai?.model`. -/
structure AIConfig where
  provider : String
  openaiModel : Option String

/-- Models `getContextLimit`: DeepSeek 131072, GPT-4 128000, GPT-3.5 16385,
other OpenAI-compatible 32000; Gemini (any non-openai provider) 1000000. -/
def getContextLimit (config : AIConfig) : Nat :=
  if config.provider = "openai" then
    let model := (config.openaiModel.getD "").toLower
    if strContains model "deepseek" then 131072
    else if strContains model "gpt-4" then 128000
    else if strContains model "gpt-3.5" then 16385
    else 32000
  else 1000000

/-- The chunking `while` loop: repeatedly take `maxChunkChars` characters
off the front until nothing remains. The `m = 0` guard has no counterpart
in the source (there the loop would not terminate); it is unreachable
because `maxChunkChars ≥ 16384` for every provider. -/
def chunkSplit (m : Nat) (l : List Char) : List (List Char) :=
  if hm : m = 0 then []
  else if hl : l = [] then []
  else l.take m :: chunkSplit m (l.drop m)
termination_by l.length
decreasing_by
  simp only [List.length_drop]
  exact Nat.sub_lt (List.length_pos.mpr hl) (Nat.pos_of_ne_zero hm)

/-- What one per-chunk LLM call can come back with: the proxy call (or its
body parse) throwing, an `data.error` payload, or a normal completion with
`data.choices?.[0]?.message?.content`. -/
inductive LLMOut where
  | thrown (msg : String) : LLMOut
  | apiError (msg : Option String) : LLMOut
  | content (text : Option String) : LLMOut

/-- The `try` block of `summarizeSingleChunk`: an `data.error` payload is
thrown (`data.error.message || 'API Error'`); a completion yields
`content || ''`. -/
def summarizeSingleChunkTry : LLMOut → Except String String
  | .thrown msg => .error msg
  | .apiError msg => .error (jsOrStr msg "API Error")
  | .content t => .ok (jsOrStr t "")

/-- Models `summarizeSingleChunk` on a chunk of text: any thrown error is caught
and the chunk is truncated to `targetTokens * 4` characters instead. -/
def summarizeSingleChunk (out : LLMOut) (text : String) (targetTokens : Nat) : String :=
  let targetChars := targetTokens * 4
  match summarizeSingleChunkTry out with
  | .ok summary => summary
  | .error _ => String.mk (text.data.take targetChars)

/-- The per-chunk LLM call failed (threw or returned an API error). -/
def llmFailed : LLMOut → Bool
  | .thrown _ => true
  | .apiError _ => true
  | .content _ => false

/-- Models `summarizeDocumentForContext`, parametrised by the per-chunk
summarizer `stub` (text and target tokens to summary) so that the
deterministic test stub can be plugged in, and by recursion fuel (the
source recursion is bounded because each pass shrinks the text). Returns
the final text and the number of stub (LLM) calls made. Fuel exhaustion
returns the text unchanged; it is never hit for positive fuel in the
cases proved below. -/
def summarizeDocumentForContext (stub : String → Nat → String) :
    Nat → String → Nat → AIConfig → String × Nat
  | 0, text, _, _ => (text, 0)
  | fuel + 1, text, targetTokens, config =>
      let currentTokens := estimateTokenCount text
      if currentTokens ≤ targetTokens then (text, 0)
      else
        let contextLimit := getContextLimit config
        let maxChunkTokens := contextLimit / 4
        let maxChunkChars := maxChunkTokens * 4
        if currentTokens < maxChunkTokens then (stub text targetTokens, 1)
        else
          let chunks := (chunkSplit maxChunkChars text.data).map (fun c => String.mk c)
          let tokensPerChunkSummary :=
            min (maxChunkTokens / 10) (targetTokens / chunks.length)
          let chunkSummaries := chunks.map (fun c => stub c tokensPerChunkSummary)
          let combinedSummary := String.intercalate "\n\n" chunkSummaries
          let combinedTokens := estimateTokenCount combinedSummary
          if combinedTokens > targetTokens then
            let deeper := summarizeDocumentForContext stub fuel combinedSummary targetTokens config
            (deeper.1, deeper.2 + chunks.length)
          else (combinedSummary, chunks.length)

/-- The spec's deterministic summarizer stub: returns the first half of
its input, ignoring the token budget. -/
def halveStub (text : String) (_targetTokens : Nat) : String :=
  String.mk (text.data.take (text.length / 2))

end QSite

namespace QSite

/-! ## Claims C5, C7, C8 — summarizer behaviour -/

/-- C7: text whose estimated token count is at most the target is returned
unchanged with no LLM call, for every summarizer and fuel. -/
theorem summarize_identity_case (stub : String → Nat → String) (fuel : Nat)
    (text : String) (targetTokens : Nat) (config : AIConfig)
    (h : estimateTokenCount text ≤ targetTokens) :
    summarizeDocumentForContext stub fuel text targetTokens config = (text, 0) := by
  cases fuel with
  | zero => rfl
  | succ n => simp [summarizeDocumentForContext, h]

/-- Witness for C7: a 4-character text against a 1-token target. -/
theorem summarize_identity_case_witness :
    summarizeDocumentForContext halveStub 5 "abcd" 1 ⟨"gemini", none⟩ = ("abcd", 0) :=
  summarize_identity_case halveStub 5 "abcd" 1 ⟨"gemini", none⟩ (by decide)

/-- C5 counterexample: 100 characters of "a" (25 estimated tokens) against
a 5-token target under the default (Gemini) provider. The input exceeds
the target, yet the summarizer — instantiated with the halving stub — makes
one pass and returns 50 characters, i.e. 13 estimated tokens, which still
exceeds the target: the claimed postcondition "estimated token count at
most the target" fails. -/
theorem summarize_exceeds_target :
    5 < estimateTokenCount (String.mk (List.replicate 100 'a')) ∧
      5 < estimateTokenCount
        (summarizeDocumentForContext halveStub 2
          (String.mk (List.replicate 100 'a')) 5 ⟨"gemini", none⟩).1 := by
  constructor <;> decide

lemma chunkSplit_chunk_le :
    ∀ (n m : Nat) (l : List Char), l.length ≤ n →
      ∀ c ∈ chunkSplit m l, c.length ≤ m := by
  intro n
  induction n with
  | zero =>
      intro m l hl c hc
      have hnil : l = [] := List.length_eq_zero.mp (Nat.le_zero.mp hl)
      subst hnil
      by_cases hm : m = 0 <;> simp [chunkSplit, hm] at hc
  | succ n ih =>
      intro m l hl c hc
      by_cases hm : m = 0
      · simp [chunkSplit, hm] at hc
      · by_cases hl0 : l = []
        · simp [chunkSplit, hm, hl0] at hc
        · rw [chunkSplit, dif_neg hm, dif_neg hl0] at hc
          rcases List.mem_cons.mp hc with h | h
          · subst h
            simp only [List.length_take]
            exact min_le_left _ _
          · refine ih m (l.drop m) ?_ c h
            rw [List.length_drop]
            have h1 : 1 ≤ m := Nat.one_le_iff_ne_zero.mpr hm
            omega

/-- C5 (amended): when the document exceeds the target but fits in a
single chunk (estimated tokens below 25% of the provider's context
window), the routine makes exactly one LLM (stub) call and returns its
output unchanged — with the halving stub, half the text, whose token count
is not rechecked against the target and so can exceed it. In the chunked
regime, the text is split into chunks of at most `maxChunkChars`
characters each. -/
theorem summarize_single_call_regime :
    (∀ (stub : String → Nat → String) (fuel : Nat) (text : String)
        (targetTokens : Nat) (config : AIConfig),
        targetTokens < estimateTokenCount text →
        estimateTokenCount text < getContextLimit config / 4 →
        summarizeDocumentForContext stub (fuel + 1) text targetTokens config
          = (stub text targetTokens, 1)) ∧
      (∀ (m : Nat) (l : List Char), ∀ c ∈ chunkSplit m l, c.length ≤ m) := by
  constructor
  · intro stub fuel text targetTokens config h1 h2
    have hn : ¬ estimateTokenCount text ≤ targetTokens := Nat.not_le.mpr h1
    simp [summarizeDocumentForContext, hn, h2]
  · intro m l c hc
    exact chunkSplit_chunk_le l.length m l le_rfl c hc

/-- Witness for the amended C5: the 100-character document of the
counterexample is in the single-call regime, so one halving pass comes
back verbatim. -/
theorem summarize_single_call_regime_witness :
    summarizeDocumentForContext halveStub 2 (String.mk (List.replicate 100 'a')) 5
        ⟨"gemini", none⟩
      = (halveStub (String.mk (List.replicate 100 'a')) 5, 1) :=
  summarize_single_call_regime.1 halveStub 1 (String.mk (List.replicate 100 'a')) 5
    ⟨"gemini", none⟩ (by decide) (by decide)

/-- C8: whenever the per-chunk LLM call fails (throws or reports an API
error), `summarizeSingleChunk` returns the chunk truncated to
`targetTokens * 4` characters instead of propagating the error — it is a
total function, so the pipeline degrades to truncation rather than
failing. -/
theorem chunk_failure_falls_back_to_truncation (out : LLMOut) (text : String)
    (targetTokens : Nat) (h : llmFailed out = true) :
    summarizeSingleChunk out text targetTokens
      = String.mk (text.data.take (targetTokens * 4)) := by
  cases out with
  | thrown msg => rfl
  | apiError msg => rfl
  | content t => simp [llmFailed] at h

/-- Witness for C8: a thrown proxy call truncates an 8-character chunk to
its 1-token (4-character) budget. -/
theorem chunk_failure_falls_back_to_truncation_witness :
    summarizeSingleChunk (LLMOut.thrown "fetch rejected") "abcdefgh" 1
      = String.mk ("abcdefgh".data.take 4) :=
  chunk_failure_falls_back_to_truncation (LLMOut.thrown "fetch rejected")
    "abcdefgh" 1 rfl

end QSite

namespace QSite

/-! ## Backup restore (`handleFileChange` in the admin settings page) -/

/-- Externally visible state mutations the restore handler can perform. -/
inductive Effect where
  | lsSet (key : String) (value : Json) : Effect
  | lsRemove (key : String) : Effect
  | postBackend (body : Json) : Effect

/-- JS property access `j.k` on a parsed JSON value. -/
def Json.field : Json → String → Option Json
  | .obj l, k => storeGet l k
  | _, _ => none

/-- Truthiness of `j.k` (an absent field is `undefined`, hence falsy). -/
def truthyField (j : Json) (k : String) : Bool :=
  match j.field k with
  | some v => v.truthy
  | none => false

/-- One `if (settings.f) localStorage.setItem(key, settings.f)` step. -/
def setIfTruthy (settings : Json) (f key : String) : List Effect :=
  match settings.field f with
  | some v => if v.truthy then [.lsSet key v] else []
  | none => []

/-- The four settings keys restored from a v3 bundle, in source order. -/
def settingsOps (settings : Json) : List Effect :=
  setIfTruthy settings "aiConfig" "quickstor_ai_config" ++
    setIfTruthy settings "systemPrompt" "quickstor_system_prompt_custom" ++
    setIfTruthy settings "fillingPrompt" "quickstor_content_filling_prompt" ++
    setIfTruthy settings "prompts" "quickstor_prompts"

/-- The settings keys a v2 `localConfig` bundle may restore. -/
def settingsKeys : List String :=
  ["quickstor_ai_config", "quickstor_system_prompt_custom",
   "quickstor_content_filling_prompt", "quickstor_prompts"]

/-- v2 fallback: `Object.entries(backup.localConfig)` filtered to the
settings keys, skipping falsy values. -/
def localConfigOps (lc : Json) : List Effect :=
  (spreadFields lc).filterMap fun kv =>
    if settingsKeys.contains kv.1 && kv.2.truthy then some (.lsSet kv.1 kv.2)
    else none

/-- One field of the v2 staging-state reconstruction:
`lc.k ? JSON.parse(lc.k) : null`. `parse` models a successful
`JSON.parse`; a stored non-string value is kept as-is. -/
def legacyField (parse : String → Json) (lc : Json) (k : String) : Json :=
  match lc.field k with
  | some v => if v.truthy then (match v with | .str s => parse s | w => w) else .null
  | none => .null

/-- The staging state reconstructed from a v2 `localConfig` bundle. -/
def legacyStaging (parse : String → Json) (lc : Json) : Json :=
  .obj
    [("pages", legacyField parse lc "quickstor_pages"),
     ("navbar", legacyField parse lc "quickstor_navbar"),
     ("footer", legacyField parse lc "quickstor_footer"),
     ("savedThemes", legacyField parse lc "quickstor_savedThemes"),
     ("theme", legacyField parse lc "quickstor_activeTheme"),
     ("customSections", legacyField parse lc "quickstor_custom_sections")]

/-- Truthiness of an optional stored value (`undefined` is falsy). -/
def truthyOpt : Option Json → Bool
  | some v => v.truthy
  | none => false

/-- Builds `{ ...current, ...st, version: "RESTORED-<now>", lastUpdated: nowIso }`:
the merged staging node pushed on restore. -/
def stagingValue (current st : Json) (now : Nat) (nowIso : String) : Json :=
  .obj
    (storeSet
      (storeSet (spreadFields (mergeSpread current st)) "version"
        (.str ("RESTORED-" ++ toString now)))
      "lastUpdated" (.str nowIso))

/-- The local content keys cleared once the backend accepted the restore. -/
def contentKeys : List String :=
  ["quickstor_pages", "quickstor_navbar", "quickstor_footer",
   "quickstor_activeTheme", "quickstor_savedThemes", "quickstor_custom_sections"]

/-- Models `handleFileChange` after the user confirmed and the file parsed as
`backup`: validation, settings restore, staging merge, backend push and
local cleanup, in source order. `parse` models `JSON.parse` on v2 string
blobs, `now`/`nowIso` the timestamps, and `backendOk` whether the
`POST /api/data` push was accepted. Returns the surfaced result together
with the externally visible effects, in the order they were performed. -/
def handleFileChange (parse : String → Json) (now : Nat) (nowIso : String)
    (backup : Json) (backendOk : Bool) : Except String Unit × List Effect :=
  if truthyField backup "backendData" = false then
    (.error "Invalid backup format: missing backend data", [])
  else
    let settingsEffects :=
      if truthyField backup "settings" then
        settingsOps ((backup.field "settings").getD .null)
      else if truthyField backup "localConfig" then
        localConfigOps ((backup.field "localConfig").getD .null)
      else []
    let newBackendData0 := spreadFields ((backup.field "backendData").getD .null)
    let stagingStateToRestore : Option Json :=
      if truthyField backup "appState" then backup.field "appState"
      else if truthyField backup "localConfig" then
        some (legacyStaging parse ((backup.field "localConfig").getD .null))
      else none
    let newBackendData :=
      match stagingStateToRestore with
      | some st =>
          let withNode :=
            if truthyOpt (storeGet newBackendData0 "sites/quickstor-staging") = false
            then storeSet newBackendData0 "sites/quickstor-staging" (.obj [])
            else newBackendData0
          let current := (storeGet withNode "sites/quickstor-staging").getD (.obj [])
          storeSet withNode "sites/quickstor-staging" (stagingValue current st now nowIso)
      | none => newBackendData0
    if backendOk then
      (.ok (),
        settingsEffects ++ [.postBackend (.obj newBackendData)]
          ++ contentKeys.map .lsRemove)
    else
      (.error "Failed to restore backend data",
        settingsEffects ++ [.postBackend (.obj newBackendData)])

end QSite

namespace QSite

/-! ## Claim C6 — restore rejects a bundle without `backendData` -/

/-- C6: a backup bundle whose `backendData` field is absent (or falsy) is
rejected with the validation error, and the handler performs no effect at
all: no localStorage key is set or removed and nothing is POSTed to the
backend store. -/
theorem restore_missing_backendData_rejected (parse : String → Json)
    (now : Nat) (nowIso : String) (backup : Json) (backendOk : Bool)
    (h : truthyField backup "backendData" = false) :
    handleFileChange parse now nowIso backup backendOk
      = (.error "Invalid backup format: missing backend data", []) := by
  unfold handleFileChange
  simp [h]

/-- Witness for C6: a bundle carrying only settings, with no
`backendData` field, is rejected without effects. -/
theorem restore_missing_backendData_rejected_witness :
    handleFileChange (fun _ => Json.null) 0 ""
        (Json.obj [("settings", Json.obj [("aiConfig", Json.str "cfg")])]) true
      = (.error "Invalid backup format: missing backend data", []) :=
  restore_missing_backendData_rejected (fun _ => Json.null) 0 ""
    (Json.obj [("settings", Json.obj [("aiConfig", Json.str "cfg")])]) true rfl

end QSite
